import Mathlib

/-!
Shallow embedding of the sourceCpp build orchestration in
`src/cpp/session/modules/build/SessionSourceCpp.cpp`.

The build session (`SourceCppContext` in the source) is modelled as a pure
state `SourceCppCtx` together with a process-wide `World` holding the PATH
environment variable, the context, and the list of client events emitted so
far.  The Rtools environment patcher (`addRtoolsToPathIfNecessary`, defined
in SessionBuildEnvironment.cpp which is outside the sample) is a parameter
`patcher : String → Bool × String × String` returning
(patched?, new path, warning text).  The GCC diagnostics parser
(SessionBuildErrors.cpp, outside the sample) is modelled from the spec.
-/

/-- Channel tag of a console output chunk (`module_context::ConsoleOutputType`). -/
inductive ConsoleOutputType where
  | normal
  | error
deriving DecidableEq, Repr

/-- Kind of a build output record (`kBuildOutputNormal` / `kBuildOutputError`). -/
inductive BuildOutputType where
  | normal
  | error
deriving DecidableEq, Repr

/-- `BuildOutput(type, output)` value record (SessionBuildUtils). -/
structure BuildOutput where
  kind : BuildOutputType
  text : String
deriving DecidableEq, Repr

/-- A structured compiler diagnostic (`CompileError` in SessionBuildErrors). -/
structure CompileError where
  sourceFile : String
  line : Nat
  column : Nat
  severity : String
  message : String
deriving DecidableEq, Repr

/-- The `SourceCppState` payload assembled for the completed event
(SessionSourceCpp.cpp lines 45-73).  The JSON encoding layer is dropped;
`outputs` and `errors` keep the records themselves. -/
structure SourceCppState where
  targetFile : String
  errors : List CompileError
  outputs : List BuildOutput
deriving DecidableEq, Repr

/-- Model of `SourceCppState::addOutput`: appends a build output record
(SessionSourceCpp.cpp lines 56-59). -/
def SourceCppState.addOutput (s : SourceCppState) (kind : BuildOutputType)
    (output : String) : SourceCppState :=
  { s with outputs := s.outputs ++ [{ kind := kind, text := output }] }

/-- Client events observable by the UI listener: the started event, the
completed event with its payload, and `module_context::consoleWriteError`. -/
inductive Event where
  | sourceCppStarted
  | sourceCppCompleted (state : SourceCppState)
  | consoleWriteError (msg : String)
deriving DecidableEq, Repr

/-- The per-build mutable fields of `SourceCppContext`
(SessionSourceCpp.cpp lines 211-218). -/
structure SourceCppCtx where
  sourceFile : String
  showOutput : Bool
  fromCode : Bool
  consoleOutputBuffer : String
  consoleErrorBuffer : String
  previousPath : String
  rToolsWarning : String
deriving DecidableEq, Repr

/-- The idle context: every per-build field empty/false. -/
def idleCtx : SourceCppCtx :=
  { sourceFile := ""
    showOutput := false
    fromCode := false
    consoleOutputBuffer := ""
    consoleErrorBuffer := ""
    previousPath := ""
    rToolsWarning := "" }

/-- Model of `SourceCppContext::reset` (SessionSourceCpp.cpp lines 198-209):
clears every per-build field (the console-signal disconnect has no state
here). -/
def SourceCppCtx.reset (_c : SourceCppCtx) : SourceCppCtx := idleCtx

/-- Process-wide state: the PATH environment variable, the singleton build
context, and the trace of emitted client events. -/
structure World where
  path : String
  ctx : SourceCppCtx
  events : List Event
deriving DecidableEq, Repr

/- ### Spec-modelled helpers (code outside the sample) -/

/-- Modelled from the spec: `FilePath::parent()` of the source file, used as
the base directory handed to the diagnostics parser — the path up to the
last `/` separator. -/
def splitOnCharAux (sep : Char) : List Char → List Char → List (List Char)
  | [], acc => [acc.reverse]
  | c :: rest, acc =>
    if c = sep then acc.reverse :: splitOnCharAux sep rest []
    else splitOnCharAux sep rest (c :: acc)

/-- Split a string at every occurrence of the separator character. -/
def splitOnChar (sep : Char) (s : String) : List String :=
  (splitOnCharAux sep s.data []).map String.mk

/-- Join strings with a separator (used to rebuild the message field and the
parent directory). -/
def joinSep (sep : String) : List String → String
  | [] => ""
  | [s] => s
  | s :: rest => s ++ sep ++ joinSep sep rest

/-- Modelled from the spec: parent directory of a path (`FilePath::parent`,
core/FilePath.cpp is outside the sample). -/
def parentDir (p : String) : String :=
  joinSep "/" (splitOnChar '/' p).dropLast

/-- Parse a decimal natural number; `none` on the empty string or any
non-digit character. -/
def parseNatCore : List Char → Nat → Option Nat
  | [], acc => some acc
  | c :: rest, acc =>
    if c.isDigit then parseNatCore rest (acc * 10 + (c.toNat - 48)) else none

/-- Parse a whole string as a decimal natural number. -/
def parseNatStr (s : String) : Option Nat :=
  match s.data with
  | [] => none
  | ds => parseNatCore ds 0

/-- Drop leading space characters (the dialect allows whitespace after each
colon). -/
def trimLeading (l : List Char) : List Char :=
  l.dropWhile (fun c => c = ' ')

/-- Modelled from the spec: resolve a relative diagnostic path against the
base directory; absolute paths are kept as-is. -/
def resolvePath (baseDir file : String) : String :=
  match file.data with
  | '/' :: _ => file
  | _ => baseDir ++ "/" ++ file

/-- Modelled from the spec: one line of the GCC diagnostic dialect
`file:line:col: severity: message` (SessionBuildErrors.cpp is outside the
sample).  A line that does not match yields `none`; severity is one of
`error`, `warning`, `note`; relative files are resolved against `baseDir`. -/
def parseGccLine (baseDir : String) (line : String) : Option CompileError :=
  match splitOnChar ':' line with
  | file :: lineStr :: colStr :: sevStr :: rest =>
    if rest.isEmpty then none
    else
      match parseNatStr lineStr, parseNatStr colStr with
      | some ln, some col =>
        let sev := String.mk (trimLeading sevStr.data)
        if sev = "error" ∨ sev = "warning" ∨ sev = "note" then
          some { sourceFile := resolvePath baseDir file
                 line := ln
                 column := col
                 severity := sev
                 message := String.mk (trimLeading (joinSep ":" rest).data) }
        else none
      | _, _ => none
  | _ => none

/-- Split text into lines at `\n`. -/
def splitLines (s : String) : List String :=
  (splitOnCharAux '\n' s.data []).map String.mk

/-- Modelled from the spec: run the GCC diagnostic dialect over every line,
skipping lines that do not match and preserving input order. -/
def gccParseLines (baseDir : String) (lines : List String) : List CompileError :=
  lines.filterMap (parseGccLine baseDir)

/-- Modelled from the spec: `gccErrorParser(baseDir)` applied to combined
output text (`CompileErrorParser` from SessionBuildErrors.cpp). -/
def gccErrorParser (baseDir : String) (text : String) : List CompileError :=
  gccParseLines baseDir (splitLines text)

/-- Modelled from the spec: `module_context::createAliasedPath` only
re-renders the path for display; it is the identity on the path text here. -/
def createAliasedPath (p : String) : String := p

/- ### The orchestrator itself (SessionSourceCpp.cpp) -/

/-- The payload built by `enqueSourceCppCompleted` (SessionSourceCpp.cpp
lines 86-95): target file, the two output records (normal output then error
output), and the diagnostics parsed from `output + "\n" + errorOutput` with
the parent of the source file as base directory. -/
def sourceCppStateFor (sourceFile output errorOutput : String) : SourceCppState :=
  let s0 : SourceCppState :=
    { targetFile := createAliasedPath sourceFile, errors := [], outputs := [] }
  let s1 := s0.addOutput BuildOutputType.normal output
  let s2 := s1.addOutput BuildOutputType.error errorOutput
  let allOutput := output ++ "\n" ++ errorOutput
  { s2 with errors := gccErrorParser (parentDir sourceFile) allOutput }

/-- Model of `enqueSourceCppCompleted` (SessionSourceCpp.cpp lines 81-101):
assemble the payload and emit the completed client event. -/
def enqueSourceCppCompleted (sourceFile output errorOutput : String) : Event :=
  Event.sourceCppCompleted (sourceCppStateFor sourceFile output errorOutput)

/-- Model of `SourceCppContext::onBuild` (SessionSourceCpp.cpp lines
111-139): reset
state, capture the parameters, run the environment patcher on the current
PATH (recording the previous PATH and installing the new one only when it
patched; the warning is whatever the patcher produced), and emit the started
event. -/
def onBuild (patcher : String → Bool × String × String) (w : World)
    (sourceFile : String) (fromCode showOutput : Bool) : World :=
  let c1 :=
    { w.ctx.reset with
        sourceFile := sourceFile
        fromCode := fromCode
        showOutput := showOutput }
  let r := patcher w.path
  let c2 := { c1 with rToolsWarning := r.2.2 }
  if r.1 then
    { path := r.2.1
      ctx := { c2 with previousPath := w.path }
      events := w.events ++ [Event.sourceCppStarted] }
  else
    { path := w.path
      ctx := c2
      events := w.events ++ [Event.sourceCppStarted] }

/-- Last character is a newline (`boost::algorithm::ends_with(output, "\n")`). -/
def endsWithNewline (s : String) : Bool :=
  match s.data.getLast? with
  | some c => c = '\n'
  | none => false

/-- Append a newline unless the chunk already ends in one
(SessionSourceCpp.cpp lines 188-189, the `_WIN32` branch). -/
def normalizeNewline (s : String) : String :=
  if endsWithNewline s then s else s ++ "\n"

/-- Model of `SourceCppContext::onConsoleOutput` (SessionSourceCpp.cpp lines
181-196): on the Windows platform (`win32 = true`) normalize the chunk to
end in a newline, then append it to the buffer of its channel. -/
def onConsoleOutput (win32 : Bool) (c : SourceCppCtx)
    (type : ConsoleOutputType) (output : String) : SourceCppCtx :=
  let out := if win32 then normalizeNewline output else output
  match type with
  | ConsoleOutputType.normal =>
      { c with consoleOutputBuffer := c.consoleOutputBuffer ++ out }
  | ConsoleOutputType.error =>
      { c with consoleErrorBuffer := c.consoleErrorBuffer ++ out }

/-- Deliver a list of console chunks in order. -/
def deliverChunks (win32 : Bool) (c : SourceCppCtx) :
    List (ConsoleOutputType × String) → SourceCppCtx
  | [] => c
  | (t, s) :: rest => deliverChunks win32 (onConsoleOutput win32 c t s) rest

/-- Concatenation of the (normalized, when on Windows) normal-channel chunks. -/
def normalTranscript (win32 : Bool) : List (ConsoleOutputType × String) → String
  | [] => ""
  | (ConsoleOutputType.normal, s) :: rest =>
      (if win32 then normalizeNewline s else s) ++ normalTranscript win32 rest
  | (ConsoleOutputType.error, _) :: rest => normalTranscript win32 rest

/-- Concatenation of the (normalized, when on Windows) error-channel chunks. -/
def errorTranscript (win32 : Bool) : List (ConsoleOutputType × String) → String
  | [] => ""
  | (ConsoleOutputType.normal, _) :: rest => errorTranscript win32 rest
  | (ConsoleOutputType.error, s) :: rest =>
      (if win32 then normalizeNewline s else s) ++ errorTranscript win32 rest

/-- The build-output text selected at finalize (SessionSourceCpp.cpp lines
162-166): the captured normal-channel buffer if the build failed or
`showOutput` was requested, otherwise the reported output of the tool. -/
def selectedBuildOutput (c : SourceCppCtx) (succeeded : Bool)
    (output : String) : String :=
  if succeeded = false ∨ c.showOutput = true then c.consoleOutputBuffer
  else output

/-- The client events emitted by `handleBuildComplete` (SessionSourceCpp.cpp
lines 168-174): the Rtools warning written to the error stream when the
build failed and a warning exists, then the completed event when the build
was not from a code string. -/
def finalizeEvents (c : SourceCppCtx) (succeeded : Bool)
    (output : String) : List Event :=
  (if succeeded = false ∧ c.rToolsWarning ≠ "" then
      [Event.consoleWriteError c.rToolsWarning]
    else [])
  ++ (if c.fromCode = false then
        [enqueSourceCppCompleted c.sourceFile
            (selectedBuildOutput c succeeded output) c.consoleErrorBuffer]
      else [])

/-- Model of `SourceCppContext::handleBuildComplete` (SessionSourceCpp.cpp
lines 154-178): restore the previous PATH when one was saved, emit the
finalize events, and reset all per-build state. -/
def handleBuildComplete (w : World) (succeeded : Bool)
    (output : String) : World :=
  { path := if w.ctx.previousPath = "" then w.path else w.ctx.previousPath
    ctx := w.ctx.reset
    events := w.events ++ finalizeEvents w.ctx succeeded output }

/-- A concrete environment patcher in the shape the spec describes for
`addRtoolsToPathIfNecessary`: prepend the Rtools entry when it is not
already at the front of PATH, otherwise report that no patch is needed. -/
def startsWithRtools (p : String) : Bool :=
  match p.data with
  | 'r' :: 't' :: 'o' :: 'o' :: 'l' :: 's' :: _ => true
  | _ => false

/-- Concrete patcher used for counterexamples: patches by prepending
`rtools;` when absent, declines when already present. -/
def rtoolsPatcher (p : String) : Bool × String × String :=
  if startsWithRtools p then (false, p, "") else (true, "rtools;" ++ p, "")

/-- Concrete patcher that never patches (toolchain already usable). -/
def noPatcher (p : String) : Bool × String × String := (false, p, "")

/-- Deliver a list of console chunks to the context inside a world. -/
def deliverChunksW (win32 : Bool) (w : World)
    (chunks : List (ConsoleOutputType × String)) : World :=
  { w with ctx := deliverChunks win32 w.ctx chunks }

/-- Initial world for the success scenario of §8 of the spec. -/
def w0scen : World := { path := "/usr", ctx := idleCtx, events := [] }

/-- After `start("x.cpp", false, false)` with a patcher that finds nothing
to patch. -/
def w1scen : World := onBuild noPatcher w0scen "x.cpp" false false

/-- After delivering the normal chunk `"compiling\n"` (non-Windows). -/
def w2scen : World :=
  { w1scen with
      ctx := onConsoleOutput false w1scen.ctx ConsoleOutputType.normal "compiling\n" }

/-- A context mid-build for a code-string build (`fromCode = true`). -/
def ctxFromCode : SourceCppCtx := { idleCtx with fromCode := true, sourceFile := "x.cpp" }

/-- A world about to finalize a code-string build. -/
def wP : World := { path := "/p", ctx := ctxFromCode, events := [] }

/-- A context mid-build with text captured on both channels. -/
def ctxBuffers : SourceCppCtx :=
  { idleCtx with consoleOutputBuffer := "out\n", consoleErrorBuffer := "err\n" }

/-- A world whose PATH is the empty string. -/
def wEmptyPath : World := { path := "", ctx := idleCtx, events := [] }

/-- A world with a normal PATH. -/
def wUsr : World := { path := "/usr", ctx := idleCtx, events := [] }

/-- A context mid-build holding a toolchain warning. -/
def ctxWarn : SourceCppCtx := { idleCtx with rToolsWarning := "w" }

/-! ### Helper lemmas -/

/-- Appending the empty string is the identity. -/
theorem str_append_empty (s : String) : s ++ "" = s := by
  cases s with
  | mk l =>
    show String.mk (l ++ []) = String.mk l
    rw [List.append_nil]

/-- Prepending the empty string is the identity. -/
theorem str_empty_append (s : String) : "" ++ s = s := rfl

/-- A string with a newline appended ends in a newline. -/
theorem endsWithNewline_append (s : String) : endsWithNewline (s ++ "\n") = true := by
  cases s with
  | mk l =>
    show endsWithNewline (String.mk (l ++ ['\n'])) = true
    simp [endsWithNewline]

/-- Delivering chunks only appends the per-channel transcripts to the two
buffers; every other field of the context is untouched. -/
theorem deliverChunks_eq (win32 : Bool)
    (chunks : List (ConsoleOutputType × String)) (c : SourceCppCtx) :
    deliverChunks win32 c chunks =
      { c with
          consoleOutputBuffer :=
            c.consoleOutputBuffer ++ normalTranscript win32 chunks
          consoleErrorBuffer :=
            c.consoleErrorBuffer ++ errorTranscript win32 chunks } := by
  induction chunks generalizing c with
  | nil => simp [deliverChunks, normalTranscript, errorTranscript, str_append_empty]
  | cons hd tl ih =>
    obtain ⟨t, s⟩ := hd
    cases t <;>
      simp [deliverChunks, onConsoleOutput, normalTranscript, errorTranscript,
        ih, String.append_assoc]

/-- Any completed event found among the finalize events carries exactly the
payload built from the session source file, the selected build output and
the error buffer, and can only be present when `fromCode` is false. -/
theorem completed_mem_eq (c : SourceCppCtx) (s : Bool) (o : String)
    (st : SourceCppState)
    (h : Event.sourceCppCompleted st ∈ finalizeEvents c s o) :
    st = sourceCppStateFor c.sourceFile (selectedBuildOutput c s o)
        c.consoleErrorBuffer
    ∧ c.fromCode = false := by
  simp only [finalizeEvents, List.mem_append] at h
  rcases h with h1 | h1
  · split at h1 <;> simp at h1
  · split at h1
    · next hfc =>
        simp only [enqueSourceCppCompleted, List.mem_singleton,
          Event.sourceCppCompleted.injEq] at h1
        exact ⟨h1, hfc⟩
    · simp at h1

/-- C1 counterexample: a finalize for a code-string build (`fromCode = true`)
emits no event at all — in particular no completed event — refuting that the
completed event is emitted for every finalized build regardless of the
`fromCode` flag. -/
theorem c1_counterexample :
    wP.ctx.fromCode = true ∧ (handleBuildComplete wP true "done").events = [] := by
  decide

/-- C1 (amended): in finalize, a completed event is emitted if and only if
`fromCode` is false — the diagnostic parsing and the emission sit inside the
same conditional — while the clearing of all per-build fields is
unconditional. -/
theorem c1_finalize_emission (w : World) (s : Bool) (o : String) :
    ((∃ st, Event.sourceCppCompleted st ∈ finalizeEvents w.ctx s o)
        ↔ w.ctx.fromCode = false)
    ∧ (handleBuildComplete w s o).ctx = idleCtx := by
  refine ⟨⟨?_, ?_⟩, rfl⟩
  · rintro ⟨st, hst⟩
    exact (completed_mem_eq w.ctx s o st hst).2
  · intro hfc
    exact ⟨sourceCppStateFor w.ctx.sourceFile (selectedBuildOutput w.ctx s o)
        w.ctx.consoleErrorBuffer,
      by simp [finalizeEvents, hfc, enqueSourceCppCompleted, List.mem_append]⟩

/-- C2 counterexample: for a failed build with text on both channels, the
selected output text is the normal-channel buffer alone, not the
`consoleOutputBuffer + consoleErrorBuffer` transcript the claim states. -/
theorem c2_counterexample :
    selectedBuildOutput ctxBuffers false ""
      ≠ ctxBuffers.consoleOutputBuffer ++ ctxBuffers.consoleErrorBuffer := by
  decide

/-- C2 (amended): the completed payload leads with a Normal entry whose text
is the normal-channel `consoleOutputBuffer` when the build failed or
`showOutput` was requested and the tool-reported output otherwise (the error
buffer travels separately as the Error entry); and in the concrete success
scenario with `showOutput = false` the payload carries the tool-reported
text `"done"` with empty diagnostics. -/
theorem c2_output_selection :
    (∀ (c : SourceCppCtx) (s : Bool) (o : String) (st : SourceCppState),
        Event.sourceCppCompleted st ∈ finalizeEvents c s o →
        st.outputs.head? = some ⟨BuildOutputType.normal,
          if s = false ∨ c.showOutput = true then c.consoleOutputBuffer else o⟩)
    ∧ (handleBuildComplete w2scen true "done").events
        = [Event.sourceCppStarted,
           Event.sourceCppCompleted ⟨"x.cpp", [],
             [⟨BuildOutputType.normal, "done"⟩,
              ⟨BuildOutputType.error, ""⟩]⟩] := by
  constructor
  · intro c s o st h
    obtain ⟨hst, _⟩ := completed_mem_eq c s o st h
    subst hst
    rfl
  · decide

/-- C2 witness: the selection theorem applied to a concrete successful
finalize with `showOutput = false`. -/
theorem c2_witness :
    (sourceCppStateFor "" "done" "").outputs.head?
      = some ⟨BuildOutputType.normal, "done"⟩ :=
  (c2_output_selection.1 idleCtx true "done" (sourceCppStateFor "" "done" "")
    (by decide)).trans (by decide)

/-- C10: every completed event carries exactly two output entries in fixed
order — the Normal entry holding the selected build output text, then the
Error entry holding the console error buffer. -/
theorem c10_completed_outputs (c : SourceCppCtx) (s : Bool) (o : String)
    (st : SourceCppState)
    (h : Event.sourceCppCompleted st ∈ finalizeEvents c s o) :
    st.outputs
      = [⟨BuildOutputType.normal, selectedBuildOutput c s o⟩,
         ⟨BuildOutputType.error, c.consoleErrorBuffer⟩] := by
  obtain ⟨hst, _⟩ := completed_mem_eq c s o st h
  subst hst
  rfl

/-- C10 witness: the outputs-shape theorem applied to a concrete finalize. -/
theorem c10_witness :
    (sourceCppStateFor "" "done" "").outputs
      = [⟨BuildOutputType.normal, selectedBuildOutput idleCtx true "done"⟩,
         ⟨BuildOutputType.error, idleCtx.consoleErrorBuffer⟩] :=
  c10_completed_outputs idleCtx true "done" (sourceCppStateFor "" "done" "")
    (by decide)

/-- C3 counterexample: when the PATH before the patch is the empty string,
the restore guard (`!previousPath_.empty()`) treats the saved value as
no-patch, so after finalize PATH is still the patched value, not the prior
empty string. -/
theorem c3_counterexample :
    (rtoolsPatcher wEmptyPath.path).1 = true
    ∧ (handleBuildComplete (onBuild rtoolsPatcher wEmptyPath "x.cpp" false false)
        true "").path ≠ wEmptyPath.path := by
  decide

/-- C3 (amended): for a single build, after finalize the PATH equals its
value strictly before the patch, except when that prior value was the empty
string and the patch was applied — then PATH remains the patched value; when
no patch was applied the restore is a no-op and PATH is unchanged. -/
theorem c3_restore (patcher : String → Bool × String × String)
    (win32 : Bool) (w : World) (f : String) (fc so : Bool)
    (chunks : List (ConsoleOutputType × String)) (s : Bool) (o : String) :
    (handleBuildComplete (deliverChunksW win32 (onBuild patcher w f fc so) chunks)
        s o).path
      = if (patcher w.path).1 = true ∧ w.path = "" then (patcher w.path).2.1
        else w.path := by
  cases hr : (patcher w.path).1
  · simp [onBuild, hr, deliverChunksW, deliverChunks_eq, handleBuildComplete,
      SourceCppCtx.reset, idleCtx]
  · by_cases hp : w.path = ""
    · rw [hp] at hr
      simp [onBuild, hr, hp, deliverChunksW, deliverChunks_eq,
        handleBuildComplete, SourceCppCtx.reset, idleCtx]
    · simp [onBuild, hr, hp, deliverChunksW, deliverChunks_eq,
        handleBuildComplete, SourceCppCtx.reset, idleCtx]

/-- C4: over a whole build lifecycle, the saved previous PATH is set at start
exactly when the patch was applied (to the pre-patch PATH), is untouched by
chunk delivery, is cleared by finalize, and finalize always performs the
restore step: it restores the saved PATH when one is present and leaves PATH
unchanged otherwise, on success and failure alike. -/
theorem c4_previousPath_invariant (patcher : String → Bool × String × String)
    (win32 : Bool) (w : World) (f : String) (fc so : Bool)
    (chunks : List (ConsoleOutputType × String)) (s : Bool) (o : String) :
    ((onBuild patcher w f fc so).ctx.previousPath
        = if (patcher w.path).1 = true then w.path else "")
    ∧ (deliverChunksW win32 (onBuild patcher w f fc so) chunks).ctx.previousPath
        = (onBuild patcher w f fc so).ctx.previousPath
    ∧ (handleBuildComplete
        (deliverChunksW win32 (onBuild patcher w f fc so) chunks) s o).ctx.previousPath
        = ""
    ∧ ((deliverChunksW win32 (onBuild patcher w f fc so) chunks).ctx.previousPath = "" →
        (handleBuildComplete
            (deliverChunksW win32 (onBuild patcher w f fc so) chunks) s o).path
          = (deliverChunksW win32 (onBuild patcher w f fc so) chunks).path)
    ∧ ((deliverChunksW win32 (onBuild patcher w f fc so) chunks).ctx.previousPath ≠ "" →
        (handleBuildComplete
            (deliverChunksW win32 (onBuild patcher w f fc so) chunks) s o).path
          = (deliverChunksW win32 (onBuild patcher w f fc so) chunks).ctx.previousPath) := by
  refine ⟨?_, ?_, rfl, ?_, ?_⟩
  · cases hr : (patcher w.path).1 <;>
      simp [onBuild, hr, SourceCppCtx.reset, idleCtx]
  · simp [deliverChunksW, deliverChunks_eq]
  · intro h
    simp [handleBuildComplete, h]
  · intro h
    simp [handleBuildComplete, h]

/-- C4 witness: the invariant applied to a patching start (restore recovers
the pre-patch PATH) and to a non-patching start (restore is a no-op). -/
theorem c4_witness :
    (handleBuildComplete
        (deliverChunksW false (onBuild rtoolsPatcher wUsr "f.cpp" false false) [])
        true "").path = "/usr"
    ∧ (handleBuildComplete
        (deliverChunksW false (onBuild noPatcher wUsr "f.cpp" false false) [])
        true "").path
      = (deliverChunksW false (onBuild noPatcher wUsr "f.cpp" false false) []).path := by
  constructor
  · exact (c4_previousPath_invariant rtoolsPatcher false wUsr "f.cpp" false false
      [] true "").2.2.2.2 (by decide)
  · exact (c4_previousPath_invariant noPatcher false wUsr "f.cpp" false false
      [] true "").2.2.2.1 (by decide)

/-- C5: after the latest start, the buffers hold exactly the transcripts of
the chunks delivered after that start, and the target file, flags, and
toolchain warning are those of that start — nothing from any prior session
survives. -/
theorem c5_latest_start_only (patcher : String → Bool × String × String)
    (win32 : Bool) (w : World) (f : String) (fc so : Bool)
    (chunks : List (ConsoleOutputType × String)) :
    ((deliverChunks win32 (onBuild patcher w f fc so).ctx chunks).consoleOutputBuffer
        = normalTranscript win32 chunks)
    ∧ ((deliverChunks win32 (onBuild patcher w f fc so).ctx chunks).consoleErrorBuffer
        = errorTranscript win32 chunks)
    ∧ (deliverChunks win32 (onBuild patcher w f fc so).ctx chunks).sourceFile = f
    ∧ (deliverChunks win32 (onBuild patcher w f fc so).ctx chunks).fromCode = fc
    ∧ (deliverChunks win32 (onBuild patcher w f fc so).ctx chunks).showOutput = so
    ∧ (deliverChunks win32 (onBuild patcher w f fc so).ctx chunks).rToolsWarning
        = (patcher w.path).2.2 := by
  cases hr : (patcher w.path).1 <;>
    simp [deliverChunks_eq, onBuild, hr, SourceCppCtx.reset, idleCtx,
      str_empty_append]

/-- C6 counterexample: two starts without an intervening finalize, with a
patcher that patches the first time and declines the second (the entry is
already present): the finalize restore is then a no-op and PATH never
returns to its value before the first apply. -/
theorem c6_counterexample :
    (rtoolsPatcher wUsr.path).1 = true
    ∧ (handleBuildComplete
        (onBuild rtoolsPatcher (onBuild rtoolsPatcher wUsr "a.cpp" false false)
          "b.cpp" false false) true "").path ≠ wUsr.path := by
  decide

/-- C6 (amended): a second start clears the saved pre-patch value and
re-captures from the already-patched PATH — after two applies without an
intervening restore, the saved previous value is the PATH after the first
patch (or empty if the second patch was declined), never the value before
the first apply. -/
theorem c6_second_apply (patcher : String → Bool × String × String)
    (w : World) (f1 : String) (b1 d1 : Bool) (f2 : String) (b2 d2 : Bool) :
    (onBuild patcher (onBuild patcher w f1 b1 d1) f2 b2 d2).ctx.previousPath
      = if (patcher (onBuild patcher w f1 b1 d1).path).1 = true
        then (onBuild patcher w f1 b1 d1).path
        else "" := by
  generalize onBuild patcher w f1 b1 d1 = w1
  cases hr : (patcher w1.path).1 <;>
    simp [onBuild, hr, SourceCppCtx.reset, idleCtx]

/-- C7: the toolchain warning is written to the user-visible error stream if
and only if the build failed and a non-empty warning exists, and what is
written is exactly the warning text. -/
theorem c7_warning_surfacing (c : SourceCppCtx) (s : Bool) (o : String) :
    ((∃ m, Event.consoleWriteError m ∈ finalizeEvents c s o)
        ↔ (s = false ∧ c.rToolsWarning ≠ ""))
    ∧ (∀ m, Event.consoleWriteError m ∈ finalizeEvents c s o →
        m = c.rToolsWarning) := by
  have key : ∀ m, Event.consoleWriteError m ∈ finalizeEvents c s o →
      m = c.rToolsWarning ∧ (s = false ∧ c.rToolsWarning ≠ "") := by
    intro m hm
    simp only [finalizeEvents, List.mem_append] at hm
    rcases hm with h1 | h1
    · split at h1
      · next hcond =>
          simp only [List.mem_singleton, Event.consoleWriteError.injEq] at h1
          exact ⟨h1, hcond⟩
      · simp at h1
    · split at h1 <;> simp [enqueSourceCppCompleted] at h1
  refine ⟨⟨?_, ?_⟩, fun m hm => (key m hm).1⟩
  · rintro ⟨m, hm⟩
    exact (key m hm).2
  · rintro ⟨hs, hw⟩
    exact ⟨c.rToolsWarning, by simp [finalizeEvents, hs, hw, List.mem_append]⟩

/-- C7 witness: the surfacing theorem applied to a concrete failed finalize
holding a warning. -/
theorem c7_witness :
    (∃ m, Event.consoleWriteError m ∈ finalizeEvents ctxWarn false "")
    ∧ "w" = ctxWarn.rToolsWarning := by
  constructor
  · exact (c7_warning_surfacing ctxWarn false "").1.mpr (by decide)
  · exact (c7_warning_surfacing ctxWarn false "").2 "w" (by decide)

/-- C8: on the newline-multiplexed platform, a chunk not ending in a newline
is stored with exactly one newline appended, a chunk already ending in a
newline is stored unchanged, the normalization is idempotent, and each chunk
lands only in the buffer of its own channel. -/
theorem c8_win32_normalization (c : SourceCppCtx) (out : String) :
    (endsWithNewline out = false →
      (onConsoleOutput true c ConsoleOutputType.normal out).consoleOutputBuffer
          = c.consoleOutputBuffer ++ (out ++ "\n")
      ∧ (onConsoleOutput true c ConsoleOutputType.error out).consoleErrorBuffer
          = c.consoleErrorBuffer ++ (out ++ "\n"))
    ∧ (endsWithNewline out = true →
      (onConsoleOutput true c ConsoleOutputType.normal out).consoleOutputBuffer
          = c.consoleOutputBuffer ++ out
      ∧ (onConsoleOutput true c ConsoleOutputType.error out).consoleErrorBuffer
          = c.consoleErrorBuffer ++ out)
    ∧ normalizeNewline (normalizeNewline out) = normalizeNewline out
    ∧ (onConsoleOutput true c ConsoleOutputType.normal out).consoleErrorBuffer
        = c.consoleErrorBuffer
    ∧ (onConsoleOutput true c ConsoleOutputType.error out).consoleOutputBuffer
        = c.consoleOutputBuffer := by
  refine ⟨?_, ?_, ?_, ?_, ?_⟩
  · intro h
    constructor <;> simp [onConsoleOutput, normalizeNewline, h]
  · intro h
    constructor <;> simp [onConsoleOutput, normalizeNewline, h]
  · by_cases h : endsWithNewline out = true
    · simp [normalizeNewline, h]
    · have hfalse : endsWithNewline out = false := by simpa using h
      simp [normalizeNewline, hfalse, endsWithNewline_append]
  · simp [onConsoleOutput]
  · simp [onConsoleOutput]

/-- C8 witness: the normalization theorem applied to a chunk without a
trailing newline. -/
theorem c8_witness :
    endsWithNewline "abc" = false
    ∧ (onConsoleOutput true idleCtx ConsoleOutputType.normal "abc").consoleOutputBuffer
        = idleCtx.consoleOutputBuffer ++ ("abc" ++ "\n") := by
  refine ⟨by decide, ?_⟩
  exact ((c8_win32_normalization idleCtx "abc").1 (by decide)).1

/-- C9: the GCC-dialect parser maps the round-trip text to exactly one
CompileError record and nothing for the non-matching line; in general a
non-matching line is skipped silently, a matching line contributes its
record at its position in input order, and a relative diagnostic path is
resolved against the base directory (the parser is a total function, so it
never throws). -/
theorem c9_gcc_roundtrip :
    gccErrorParser "/a/b"
        "/a/b/foo.cpp:12:5: error: expected \x27;\x27\nnote: irrelevant line\n"
      = [⟨"/a/b/foo.cpp", 12, 5, "error", "expected \x27;\x27"⟩]
    ∧ (∀ b l ls, parseGccLine b l = none →
        gccParseLines b (l :: ls) = gccParseLines b ls)
    ∧ (∀ b l ls e, parseGccLine b l = some e →
        gccParseLines b (l :: ls) = e :: gccParseLines b ls)
    ∧ parseGccLine "/base" "rel.cpp:3:4: warning: unused"
        = some ⟨"/base/rel.cpp", 3, 4, "warning", "unused"⟩ := by
  refine ⟨by decide, ?_, ?_, by decide⟩
  · intro b l ls h
    simp [gccParseLines, List.filterMap_cons, h]
  · intro b l ls e h
    simp [gccParseLines, List.filterMap_cons, h]

/-- C9 witness: the skip clause applied to a concrete non-matching line in
front of a matching one. -/
theorem c9_witness :
    gccParseLines "/x" ["note: hi", "a.cpp:1:2: error: m"]
      = gccParseLines "/x" ["a.cpp:1:2: error: m"] :=
  c9_gcc_roundtrip.2.1 "/x" "note: hi" ["a.cpp:1:2: error: m"] (by decide)
